import Mathlib

/-!
Verification of the synthesis-orchestration core of the Voxia backend
(src/backend/tts_engine.py, method TTSEngine.generate_audio_file, plus the
data it consumes).  The Python code is shallowly embedded: the voice
catalog is a list of voice records, the script-detection regexes become
character-range predicates, the rate computation is modelled over exact
rationals (Python floats idealised as rationals), and the provider call
together with the per-request output file is modelled by an explicit
provider-outcome value and a boolean file state, so that every control
path of the method (validation, auto-switching, synthesis, artifact
checks, cleanup handlers) is a total function of its inputs.
-/

/-- Python exception values raised by the engine, as (class, message).
The source raises ValueError for validation/mismatch/no-audio failures and
bare Exception for everything funnelled through the generic handler. -/
inductive PyError where
  | valueError (msg : String)
  | exception (msg : String)
deriving DecidableEq, Repr

/-- One entry of the voice catalog returned by edge_tts.list_voices():
the fields the engine reads (ShortName, FriendlyName, Gender, Locale). -/
structure Voice where
  shortName : String
  friendlyName : String
  gender : String
  locale : String
deriving DecidableEq, Repr

/-- Lookup modelling valid_voices built by the dict comprehension
valid_voices = (v["ShortName"]: v for v in voices): a later entry with the
same ShortName overwrites an earlier one, hence the left fold. -/
def lookupVoice (voices : List Voice) (name : String) : Option Voice :=
  voices.foldl (fun acc v => if v.shortName = name then some v else acc) none

/-- Character class of the regex [а-яА-ЯёЁ] used at tts_engine.py:44:
а..я is U+0430..U+044F, А..Я is U+0410..U+042F, ё is U+0451, Ё is U+0401. -/
def isCyrillicRegexChar (c : Char) : Bool :=
  (0x430 ≤ c.toNat && c.toNat ≤ 0x44F) || (0x410 ≤ c.toNat && c.toNat ≤ 0x42F)
    || c.toNat == 0x451 || c.toNat == 0x401

/-- has_cyrillic = bool(re.search(r'[а-яА-ЯёЁ]', text)) (tts_engine.py:44). -/
def hasCyrillic (text : String) : Bool := text.data.any isCyrillicRegexChar

/-- Character class of the regex [一-鿿] used at tts_engine.py:45. -/
def isChineseChar (c : Char) : Bool := 0x4E00 ≤ c.toNat && c.toNat ≤ 0x9FFF

/-- has_chinese = bool(re.search(r'[一-鿿]', text)) (tts_engine.py:45). -/
def hasChinese (text : String) : Bool := text.data.any isChineseChar

/-- Character class of the regex [؀-ۿ] used at tts_engine.py:46. -/
def isArabicChar (c : Char) : Bool := 0x600 ≤ c.toNat && c.toNat ≤ 0x6FF

/-- has_arabic = bool(re.search(r'[؀-ۿ]', text)) (tts_engine.py:46). -/
def hasArabic (text : String) : Bool := text.data.any isArabicChar

/-- locale.split("-")[0].lower() (tts_engine.py:41): the part of the locale
before the first hyphen, lower-cased. -/
def localeLang (locale : String) : String :=
  String.mk ((locale.data.takeWhile (fun c => c != '-')).map Char.toLower)

/-- Python str.startswith, on the underlying character lists. -/
def strStartsWith (s p : String) : Bool := p.data.isPrefixOf s.data

/-- Message of the ValueError raised at tts_engine.py:37. -/
def invalidVoiceMsg (voice : String) : String :=
  "Invalid voice ID: " ++ voice ++ ". Use /speakers endpoint to get valid voice IDs."

/-- Message of the ValueError raised at tts_engine.py:59-62. -/
def cyrMismatchMsg (voice locale : String) : String :=
  "Language mismatch: Detected Russian/Cyrillic text but selected voice \x27" ++ voice
    ++ "\x27 is " ++ locale ++ ", and no Russian voices are available."

/-- Message of the ValueError raised at tts_engine.py:73-76. -/
def zhMismatchMsg (voice locale : String) : String :=
  "Language mismatch: Detected Chinese text but selected voice \x27" ++ voice
    ++ "\x27 is " ++ locale ++ ", and no Chinese voices are available."

/-- Message of the ValueError raised at tts_engine.py:87-90. -/
def arMismatchMsg (voice locale : String) : String :=
  "Language mismatch: Detected Arabic text but selected voice \x27" ++ voice
    ++ "\x27 is " ++ locale ++ ", and no Arabic voices are available."

/-- Message of the ValueError raised at tts_engine.py:127-134 when the
provider reports NoAudioReceived. -/
def noAudioMsg (voice locale : String) : String :=
  "No audio received from Edge TTS service. This usually means the voice \x27" ++ voice
    ++ "\x27 (" ++ locale ++ ") cannot synthesize the provided text. Common causes:\n"
    ++ "1. Language mismatch: The voice language doesn\x27t match the text language\n"
    ++ "2. Unsupported characters: The text contains characters the voice cannot pronounce\n"
    ++ "Please select a voice that matches your text language."

/-- The Cyrillic auto-correction block (tts_engine.py:49-62).  The working
voice is a pair (short name, locale); the language subtag is recomputed
from the current locale exactly as the source keeps voice_lang in sync. -/
def cyrStep (text : String) (voices : List Voice) (st : String × String) :
    Except PyError (String × String) :=
  if hasCyrillic text && !((["ru", "uk", "be"] : List String).contains (localeLang st.2)) then
    match voices.filter (fun v => strStartsWith v.locale "ru-") with
    | v :: _ => .ok (v.shortName, v.locale)
    | [] => .error (.valueError (cyrMismatchMsg st.1 st.2))
  else .ok st

/-- The Chinese auto-correction block (tts_engine.py:64-76): compatibility
accepts locales starting with "zh-" or "cmn-", replacement searches only
"zh-". -/
def zhStep (text : String) (voices : List Voice) (st : String × String) :
    Except PyError (String × String) :=
  if hasChinese text && !(strStartsWith st.2 "zh-" || strStartsWith st.2 "cmn-") then
    match voices.filter (fun v => strStartsWith v.locale "zh-") with
    | v :: _ => .ok (v.shortName, v.locale)
    | [] => .error (.valueError (zhMismatchMsg st.1 st.2))
  else .ok st

/-- The Arabic auto-correction block (tts_engine.py:78-90). -/
def arStep (text : String) (voices : List Voice) (st : String × String) :
    Except PyError (String × String) :=
  if hasArabic text && !(strStartsWith st.2 "ar-") then
    match voices.filter (fun v => strStartsWith v.locale "ar-") with
    | v :: _ => .ok (v.shortName, v.locale)
    | [] => .error (.valueError (arMismatchMsg st.1 st.2))
  else .ok st

/-- The three auto-correction blocks run in source order (Cyrillic, then
Chinese, then Arabic), each seeing the voice left by the previous one; a
raised ValueError aborts the rest of the method. -/
def resolveHints (text : String) (voices : List Voice) (st : String × String) :
    Except PyError (String × String) :=
  match cyrStep text voices st with
  | .error e => .error e
  | .ok st1 =>
    match zhStep text voices st1 with
    | .error e => .error e
    | .ok st2 => arStep text voices st2

/-- Lines 26-27 of tts_engine.py: an empty-string speaker_wav is replaced
by None before the default is applied. -/
def normalizeSpeaker (speaker_wav : Option String) : Option String :=
  match speaker_wav with
  | some s => if s = "" then none else some s
  | none => none

/-- Voice validation and resolution (tts_engine.py:26-90): default the
voice id, require it to be in the catalog (else the ValueError of line 37),
then run the auto-correction blocks.  Returns the effective (short name,
locale) pair. -/
def resolveVoice (text : String) (speaker_wav : Option String) (voices : List Voice) :
    Except PyError (String × String) :=
  let voice := (normalizeSpeaker speaker_wav).getD "ru-RU-DmitryNeural"
  match lookupVoice voices voice with
  | none => .error (.valueError (invalidVoiceMsg voice))
  | some v => resolveHints text voices (voice, v.locale)

/-- Truncation toward zero, the semantics of Python int() on a number:
floor for nonnegative arguments, ceiling for negative ones.  Python floats
are idealised as exact rationals throughout. -/
def ratTrunc (q : ℚ) : ℤ := if 0 ≤ q then ⌊q⌋ else ⌈q⌉

/-- rate_pct = int((speed - 1.0) * 100) (tts_engine.py:94). -/
def ratePct (speed : ℚ) : ℤ := ratTrunc ((speed - 1) * 100)

/-- Decimal digit character, code point 48 + d for d below ten. -/
def digitChar (d : Nat) : Char := Char.ofNat (48 + d)

/-- Fuelled most-significant-first decimal rendering of a natural. -/
def natDigitsAux : Nat → Nat → List Char
  | 0, _ => []
  | fuel + 1, n =>
    if n < 10 then [digitChar n]
    else natDigitsAux fuel (n / 10) ++ [digitChar (n % 10)]

/-- Decimal digits of a natural number, most significant first. -/
def natDigits (n : Nat) : List Char := natDigitsAux (n + 1) n

/-- Numeric value of a most-significant-first digit string. -/
def digitsVal (l : List Char) : Nat :=
  l.foldl (fun a c => a * 10 + (c.toNat - 48)) 0

/-- Python format specifier "+d": the integer in decimal with an explicit
leading sign. -/
def intSigned (n : ℤ) : String :=
  (if 0 ≤ n then "+" else "-") ++ String.mk (natDigits n.natAbs)

/-- rate_str = f"(rate_pct:+d)%" (tts_engine.py:95): the truncated signed
percentage followed by a percent sign. -/
def rateStr (speed : ℚ) : String := intSigned (ratePct speed) ++ "%"

/-- Parser for rate strings: a mandatory sign, decimal digits, and a
trailing percent sign; yields the signed numeric value. -/
def parseRate (s : String) : Option ℤ :=
  match s.data with
  | '+' :: rest =>
    if rest.getLast? = some '%' then some (digitsVal rest.dropLast) else none
  | '-' :: rest =>
    if rest.getLast? = some '%' then some (-(digitsVal rest.dropLast : ℤ)) else none
  | _ => none

/-- Python round() (banker's rounding, ties to even), used to state the
spec's claimed formula round((speed - 1.0) * 100). -/
def pyRound (q : ℚ) : ℤ :=
  if q - ⌊q⌋ < 1/2 then ⌊q⌋
  else if 1/2 < q - ⌊q⌋ then ⌊q⌋ + 1
  else if Int.emod ⌊q⌋ 2 = 0 then ⌊q⌋ else ⌊q⌋ + 1

/-- Outcome of the provider call communicate.save(path) (tts_engine.py:106),
together with the state of the output path when control returns: normal
return, the NoAudioReceived exception, or any other exception with its
message.  fexists says whether a file is present at the path afterwards,
size its byte size on a normal return. -/
inductive ProviderOutcome where
  | ok (fexists : Bool) (size : Nat)
  | noAudio (fexists : Bool)
  | err (msg : String) (fexists : Bool)
deriving DecidableEq, Repr

/-- An exception propagating out of the try block body: either the
provider's NoAudioReceived or a generic exception with a message. -/
inductive Raised where
  | noAudioReceived
  | exc (msg : String)
deriving DecidableEq, Repr

/-- The guarded removal `if os.path.exists(path): os.remove(path)` used by
both exception handlers (tts_engine.py:123-124 and 140-141); afterwards no
file is present. -/
def removeIfExists (fexists : Bool) : Bool := if fexists then false else fexists

/-- The body of the try block (tts_engine.py:105-117): run the provider,
then check the artifact exists and is non-empty, removing it (line 116)
before raising the zero-byte error.  Returns the outcome together with the
file state at the moment control leaves the block. -/
def tryBody (provider : ProviderOutcome) : Except Raised Unit × Bool :=
  match provider with
  | .ok fexists size =>
    if fexists = false then (.error (.exc "Audio file was not created"), fexists)
    else if size = 0 then (.error (.exc "Audio file is empty (0 bytes)"), removeIfExists fexists)
    else (.ok (), fexists)
  | .noAudio fexists => (.error .noAudioReceived, fexists)
  | .err m fexists => (.error (.exc m), fexists)

/-- The two exception handlers (tts_engine.py:119-142): NoAudioReceived is
re-raised as a ValueError with the remediation message, anything else as
Exception("Edge-TTS error: " + str(e)); both delete the file if present.
Returns the propagated error and the final file state. -/
def handleRaised (r : Raised) (fexists : Bool) (voice locale : String) : PyError × Bool :=
  match r with
  | .noAudioReceived => (.valueError (noAudioMsg voice locale), removeIfExists fexists)
  | .exc m => (.exception ("Edge-TTS error: " ++ m), removeIfExists fexists)

/-- Observable outcome of one call of generate_audio_file: the returned
path or propagated exception, the resolved (voice, locale) pair and rate
string when resolution succeeded, whether the output location was
allocated (tempfile.mkstemp, line 100), whether the provider was invoked,
and whether a file remains at the allocated path. -/
structure RunResult where
  result : Except PyError String
  resolved : Option (String × String)
  rate : Option String
  allocated : Bool
  providerCalled : Bool
  fileLeft : Bool
deriving Repr

/-- TTSEngine.generate_audio_file (tts_engine.py:23-144) as a function of
its arguments, the catalog snapshot returned by edge_tts.list_voices(),
the provider outcome, and the path handed out by mkstemp.  The language
argument is part of the Python signature and is carried here unchanged. -/
def generate_audio_file (text : String) (language : String) (speaker_wav : Option String)
    (speed : ℚ) (voices : List Voice) (provider : ProviderOutcome) (path : String) :
    RunResult :=
  match resolveVoice text speaker_wav voices with
  | .error e => ⟨.error e, none, none, false, false, false⟩
  | .ok st =>
    let rs := rateStr speed
    match tryBody provider with
    | (.ok _, fexists) => ⟨.ok path, some st, some rs, true, true, fexists⟩
    | (.error r, fexists) =>
      let h := handleRaised r fexists st.1 st.2
      ⟨.error h.1, some st, some rs, true, true, h.2⟩

/-- Script hints of the specification, in its fixed evaluation order. -/
inductive ScriptHint where
  | cyrillic
  | chinese
  | arabic
deriving DecidableEq, Repr

/-- Whether a hint is detected in the text (spec section 4.2). -/
def hintDetected (h : ScriptHint) (text : String) : Bool :=
  match h with
  | .cyrillic => hasCyrillic text
  | .chinese => hasChinese text
  | .arabic => hasArabic text

/-- Whether a hint is compatible with the current voice (spec section 4.3
step 5): Cyrillic with subtags ru/uk/be, Chinese with locales starting
zh- or cmn-, Arabic with locales starting ar-. -/
def hintCompatible (h : ScriptHint) (locale : String) : Bool :=
  match h with
  | .cyrillic => (["ru", "uk", "be"] : List String).contains (localeLang locale)
  | .chinese => strStartsWith locale "zh-" || strStartsWith locale "cmn-"
  | .arabic => strStartsWith locale "ar-"

/-- The locale family searched for a hint's auto-correction (spec section
4.3 step 6). -/
def hintFamily (h : ScriptHint) : String :=
  match h with
  | .cyrillic => "ru-"
  | .chinese => "zh-"
  | .arabic => "ar-"

/-- The LanguageMismatch message belonging to a hint. -/
def hintMismatchMsg (h : ScriptHint) (voice locale : String) : String :=
  match h with
  | .cyrillic => cyrMismatchMsg voice locale
  | .chinese => zhMismatchMsg voice locale
  | .arabic => arMismatchMsg voice locale

/-- One step of the per-hint algorithm as worded in spec section 4.3 and
claim C4: if the hint is detected and incompatible with the working voice,
replace it by the first catalog voice of the hint's family, or fail with
LanguageMismatch when none exists; otherwise keep the voice. -/
def stepHint (text : String) (voices : List Voice) (h : ScriptHint) (st : String × String) :
    Except PyError (String × String) :=
  if hintDetected h text && !hintCompatible h st.2 then
    match voices.filter (fun v => strStartsWith v.locale (hintFamily h)) with
    | v :: _ => .ok (v.shortName, v.locale)
    | [] => .error (.valueError (hintMismatchMsg h st.1 st.2))
  else .ok st

/-- The spec-side resolution of claim C4: fold the per-hint step over the
hints in the fixed order Cyrillic, Chinese, Arabic, aborting on error. -/
def resolveHintsSpec (text : String) (voices : List Voice) (st : String × String) :
    Except PyError (String × String) :=
  [ScriptHint.cyrillic, ScriptHint.chinese, ScriptHint.arabic].foldl
    (fun acc h =>
      match acc with
      | .error e => .error e
      | .ok s => stepHint text voices h s)
    (.ok st)

/-- Claim C5's notion of Cyrillic letter, following the spec's words: a
code point in the Cyrillic letter ranges А..Я (U+0410..U+042F) and
а..я (U+0430..U+044F), including ё (U+0451) and Ё (U+0401); the two
contiguous case ranges merge into U+0410..U+044F. -/
def inCyrillicLetterRanges (c : Char) : Prop :=
  (0x410 ≤ c.toNat ∧ c.toNat ≤ 0x44F) ∨ c.toNat = 0x451 ∨ c.toNat = 0x401

/-- Sample catalog entries used by concrete witnesses. -/
def enVoice : Voice :=
  ⟨"en-US-AriaNeural", "Microsoft Aria Online (Natural) - English (United States)",
    "Female", "en-US"⟩

/-- Sample Russian voice, the engine's fallback default. -/
def ruVoice : Voice :=
  ⟨"ru-RU-DmitryNeural", "Microsoft Dmitry Online (Natural) - Russian (Russia)",
    "Male", "ru-RU"⟩

/-- Sample Chinese voice. -/
def zhVoice : Voice :=
  ⟨"zh-CN-XiaoxiaoNeural", "Microsoft Xiaoxiao Online (Natural) - Chinese (Mainland)",
    "Female", "zh-CN"⟩

theorem digitsVal_append_singleton (l : List Char) (c : Char) :
    digitsVal (l ++ [c]) = digitsVal l * 10 + (c.toNat - 48) := by
  unfold digitsVal
  rw [List.foldl_append]
  rfl

theorem digitChar_toNat (d : Nat) (h : d < 10) : (digitChar d).toNat = 48 + d := by
  interval_cases d <;> decide

theorem digitsVal_natDigitsAux (fuel n : Nat) (h : n < fuel) :
    digitsVal (natDigitsAux fuel n) = n := by
  induction fuel generalizing n with
  | zero => omega
  | succ f ih =>
    unfold natDigitsAux
    by_cases h10 : n < 10
    · simp only [h10, if_true]
      unfold digitsVal
      simp [List.foldl, digitChar_toNat n h10]
    · simp only [h10, if_false]
      rw [digitsVal_append_singleton, ih (n / 10) (by omega),
        digitChar_toNat (n % 10) (by omega)]
      omega

theorem digitsVal_natDigits (n : Nat) : digitsVal (natDigits n) = n :=
  digitsVal_natDigitsAux (n + 1) n (Nat.lt_succ_self n)

theorem parseRate_intSigned (n : ℤ) : parseRate (intSigned n ++ "%") = some n := by
  unfold parseRate intSigned
  by_cases h : 0 ≤ n
  · simp only [h, if_true]
    have hd : (("+" ++ String.mk (natDigits n.natAbs)) ++ "%").data
        = '+' :: (natDigits n.natAbs ++ ['%']) := by
      simp [String.data_append]
    rw [hd]
    simp [List.getLast?_concat, List.dropLast_concat, digitsVal_natDigits]
    omega
  · simp only [h, if_false]
    have hd : (("-" ++ String.mk (natDigits n.natAbs)) ++ "%").data
        = '-' :: (natDigits n.natAbs ++ ['%']) := by
      simp [String.data_append]
    rw [hd]
    simp only [List.getLast?_concat, List.dropLast_concat, if_pos, digitsVal_natDigits,
      Option.some.injEq]
    omega

theorem intSigned_head (n : ℤ) :
    (intSigned n ++ "%").data.head? = some '+' ∨ (intSigned n ++ "%").data.head? = some '-' := by
  unfold intSigned
  by_cases h : 0 ≤ n
  · left
    simp [h, String.data_append]
  · right
    simp [h, String.data_append]

theorem ratePct_one : ratePct 1 = 0 := by
  unfold ratePct ratTrunc
  norm_num

theorem ratePct_five_quarters : ratePct (5/4) = 25 := by
  unfold ratePct ratTrunc
  norm_num

theorem ratePct_three_halves : ratePct (3/2) = 50 := by
  unfold ratePct ratTrunc
  norm_num

theorem ratePct_half : ratePct (1/2) = -50 := by
  unfold ratePct ratTrunc
  norm_num
  norm_cast

theorem ratePct_four_fifths : ratePct (4/5) = -20 := by
  unfold ratePct ratTrunc
  norm_num
  norm_cast

/-- Claim C2, counterexample: at speed 1.256 the code's rate value,
int((speed - 1) * 100) = 25, differs from the claimed round((speed - 1) * 100)
= 26, and the emitted rate string is "+25%", not "+26%". -/
theorem C2_counterexample :
    ratePct (157/125) = 25 ∧ pyRound (((157 : ℚ)/125 - 1) * 100) = 26 ∧
      rateStr (157/125) = "+25%" ∧ ratePct (157/125) ≠ pyRound (((157 : ℚ)/125 - 1) * 100) := by
  have h1 : ratePct (157/125) = 25 := by
    unfold ratePct ratTrunc
    norm_num
  have h2 : pyRound (((157 : ℚ)/125 - 1) * 100) = 26 := by
    unfold pyRound
    norm_num
  refine ⟨h1, h2, ?_, by rw [h1, h2]; decide⟩
  unfold rateStr
  rw [h1]
  decide

/-- Claim C2 as amended: for every speed the rate string is deterministic
(it is a function of the speed alone), starts with an explicit sign, and
its numeric value equals the integer truncation toward zero of
(speed - 1) * 100 — Python's int(), not round(); with floats idealised as
exact rationals, speeds 1, 1.25, 1.5, 0.5 and 0.8 yield "+0%", "+25%",
"+50%", "-50%" and "-20%". -/
theorem C2_rate_string :
    (∀ speed : ℚ, parseRate (rateStr speed) = some (ratTrunc ((speed - 1) * 100)) ∧
      ((rateStr speed).data.head? = some '+' ∨ (rateStr speed).data.head? = some '-')) ∧
    rateStr 1 = "+0%" ∧ rateStr (5/4) = "+25%" ∧ rateStr (3/2) = "+50%" ∧
      rateStr (1/2) = "-50%" ∧ rateStr (4/5) = "-20%" := by
  refine ⟨fun speed => ⟨?_, ?_⟩, ?_, ?_, ?_, ?_, ?_⟩
  · rw [rateStr, parseRate_intSigned]
    rfl
  · exact intSigned_head (ratePct speed)
  · rw [rateStr, ratePct_one]; decide
  · rw [rateStr, ratePct_five_quarters]; decide
  · rw [rateStr, ratePct_three_halves]; decide
  · rw [rateStr, ratePct_half]; decide
  · rw [rateStr, ratePct_four_fifths]; decide

theorem stepHint_cyrillic (text : String) (voices : List Voice) (st : String × String) :
    stepHint text voices ScriptHint.cyrillic st = cyrStep text voices st := rfl

theorem stepHint_chinese (text : String) (voices : List Voice) (st : String × String) :
    stepHint text voices ScriptHint.chinese st = zhStep text voices st := rfl

theorem stepHint_arabic (text : String) (voices : List Voice) (st : String × String) :
    stepHint text voices ScriptHint.arabic st = arStep text voices st := rfl

/-- Claim C4: voice resolution evaluates the script hints in the fixed
order Cyrillic, Chinese, Arabic; on the first hint incompatible with the
current voice it replaces the working voice with the first catalog voice
of that hint's family (ru- / zh- / ar-), later hints are checked against
the replaced voice, and a missing family yields LanguageMismatch — the
source's three sequential blocks coincide with the spec's ordered
per-hint fold. -/
theorem C4_hint_order (text : String) (voices : List Voice) (st : String × String) :
    resolveHints text voices st = resolveHintsSpec text voices st := by
  unfold resolveHints resolveHintsSpec
  simp only [List.foldl, stepHint_cyrillic, stepHint_chinese, stepHint_arabic]
  cases cyrStep text voices st with
  | error e => rfl
  | ok st1 => dsimp only

theorem isCyrillicRegexChar_iff (c : Char) :
    isCyrillicRegexChar c = true ↔ inCyrillicLetterRanges c := by
  unfold isCyrillicRegexChar inCyrillicLetterRanges
  simp only [Bool.or_eq_true, Bool.and_eq_true, decide_eq_true_eq, beq_iff_eq]
  omega

/-- Claim C5: the language classifier reports the Cyrillic hint exactly
when the text contains at least one code point of the Cyrillic letter
ranges А..Я / а..я including ё and Ё, and it is a pure function of the
text (it is a Lean function of the text alone). -/
theorem C5_cyrillic_detection (text : String) :
    hasCyrillic text = true ↔ ∃ c ∈ text.data, inCyrillicLetterRanges c := by
  unfold hasCyrillic
  rw [List.any_eq_true]
  constructor
  · rintro ⟨c, hc, hp⟩
    exact ⟨c, hc, (isCyrillicRegexChar_iff c).mp hp⟩
  · rintro ⟨c, hc, hp⟩
    exact ⟨c, hc, (isCyrillicRegexChar_iff c).mpr hp⟩

/-- Claim C8: a requested voice id equal to the empty string behaves
identically to an absent one on every run, and in both cases the
effective requested voice before validation is the fallback
ru-RU-DmitryNeural, whatever the text's script hints. -/
theorem C8_empty_speaker (text lang : String) (speed : ℚ) (voices : List Voice)
    (provider : ProviderOutcome) (path : String) :
    generate_audio_file text lang (some "") speed voices provider path
        = generate_audio_file text lang none speed voices provider path ∧
      (normalizeSpeaker (some "")).getD "ru-RU-DmitryNeural" = "ru-RU-DmitryNeural" ∧
      (normalizeSpeaker none).getD "ru-RU-DmitryNeural" = "ru-RU-DmitryNeural" :=
  ⟨rfl, rfl, rfl⟩

/-- Claim C9: the language argument of generate_audio_file is never read —
two runs differing only in it have identical outcomes (same resolved
voice, same rate string, same success-or-error result, same file state). -/
theorem C9_language_ignored (text lang1 lang2 : String) (sw : Option String) (speed : ℚ)
    (voices : List Voice) (provider : ProviderOutcome) (path : String) :
    generate_audio_file text lang1 sw speed voices provider path
      = generate_audio_file text lang2 sw speed voices provider path := rfl

theorem removeIfExists_eq_false (b : Bool) : removeIfExists b = false := by
  cases b <;> rfl

/-- Claim C1, counterexample: for text containing both Cyrillic and
Chinese characters and a catalog holding English, Russian and Chinese
voices, resolution starting from the English voice first auto-switches to
the Russian voice, then the Chinese block switches away again, and
resolution completes with a zh voice whose language subtag is outside
ru/uk/be — contradicting that resolution never completes with a voice
outside that set. -/
theorem C1_counterexample :
    hasCyrillic "Привет 你好" = true ∧
    localeLang enVoice.locale = "en" ∧
    ((["ru", "uk", "be"] : List String).contains "en") = false ∧
    resolveVoice "Привет 你好" (some "en-US-AriaNeural") [enVoice, ruVoice, zhVoice]
      = .ok ("zh-CN-XiaoxiaoNeural", "zh-CN") ∧
    ((["ru", "uk", "be"] : List String).contains (localeLang "zh-CN")) = false := by
  refine ⟨by decide, by decide, by decide, ?_, by decide⟩
  rfl

/-- Claim C1 as amended: for text containing a Cyrillic letter of the
detected ranges and no Chinese or Arabic characters, when the requested
voice is in the catalog with a language subtag outside ru/uk/be,
resolution either returns the first catalog voice whose locale starts
with ru- (auto-switched) or fails with LanguageMismatch when no catalog
voice's locale starts with ru-; it never completes while keeping the
mismatched voice. -/
theorem C1_cyrillic_autoswitch (text name : String) (voices : List Voice) (v : Voice)
    (hcy : hasCyrillic text = true) (hzh : hasChinese text = false) (har : hasArabic text = false)
    (hne : ¬(name = "")) (hlk : lookupVoice voices name = some v)
    (hlang : ((["ru", "uk", "be"] : List String).contains (localeLang v.locale)) = false) :
    (∃ w ws, voices.filter (fun u => strStartsWith u.locale "ru-") = w :: ws ∧
        resolveVoice text (some name) voices = .ok (w.shortName, w.locale) ∧
        strStartsWith w.locale "ru-" = true) ∨
    (voices.filter (fun u => strStartsWith u.locale "ru-") = [] ∧
        resolveVoice text (some name) voices
          = .error (.valueError (cyrMismatchMsg name v.locale))) := by
  have hres : resolveVoice text (some name) voices = resolveHints text voices (name, v.locale) := by
    unfold resolveVoice normalizeSpeaker
    dsimp only
    rw [if_neg hne]
    dsimp only [Option.getD]
    rw [hlk]
  rw [hres]
  unfold resolveHints cyrStep
  dsimp only
  simp only [hcy, hlang, Bool.not_false, Bool.and_self, if_true]
  cases hfil : voices.filter (fun u => strStartsWith u.locale "ru-") with
  | nil =>
    right
    exact ⟨rfl, rfl⟩
  | cons w ws =>
    left
    refine ⟨w, ws, rfl, ?_, ?_⟩
    · unfold zhStep arStep
      rw [hzh, har]
      rfl
    · have hw : w ∈ voices.filter (fun u => strStartsWith u.locale "ru-") := by
        rw [hfil]
        exact List.mem_cons_self _ _
      exact (List.mem_filter.mp hw).2

/-- Claim C1 witness: the amended statement at text "Привет", requested
voice en-US-AriaNeural, catalog holding the English and Russian voices. -/
theorem C1_cyrillic_autoswitch_witness :
    hasCyrillic "Привет" = true ∧ hasChinese "Привет" = false ∧ hasArabic "Привет" = false ∧
    ¬("en-US-AriaNeural" = "") ∧
    lookupVoice [enVoice, ruVoice] "en-US-AriaNeural" = some enVoice ∧
    ((["ru", "uk", "be"] : List String).contains (localeLang enVoice.locale)) = false ∧
    ((∃ w ws, [enVoice, ruVoice].filter (fun u => strStartsWith u.locale "ru-") = w :: ws ∧
        resolveVoice "Привет" (some "en-US-AriaNeural") [enVoice, ruVoice]
          = .ok (w.shortName, w.locale) ∧
        strStartsWith w.locale "ru-" = true) ∨
      ([enVoice, ruVoice].filter (fun u => strStartsWith u.locale "ru-") = [] ∧
        resolveVoice "Привет" (some "en-US-AriaNeural") [enVoice, ruVoice]
          = .error (.valueError (cyrMismatchMsg "en-US-AriaNeural" enVoice.locale)))) :=
  ⟨by decide, by decide, by decide, by decide, by decide, by decide,
    C1_cyrillic_autoswitch "Привет" "en-US-AriaNeural" [enVoice, ruVoice] enVoice
      (by decide) (by decide) (by decide) (by decide) (by decide) (by decide)⟩

/-- Claim C3: every failure of generate_audio_file leaves no file at the
allocated output path — both exception handlers and the zero-byte check
delete the artifact before the error propagates, and resolution failures
happen before the allocation. -/
theorem C3_cleanup_on_error (text lang : String) (sw : Option String) (speed : ℚ)
    (voices : List Voice) (provider : ProviderOutcome) (path : String) (e : PyError)
    (herr : (generate_audio_file text lang sw speed voices provider path).result = .error e) :
    (generate_audio_file text lang sw speed voices provider path).fileLeft = false := by
  unfold generate_audio_file at herr ⊢
  cases hres : resolveVoice text sw voices with
  | error e2 => rfl
  | ok st =>
    rw [hres] at herr
    dsimp only at herr ⊢
    cases htb : tryBody provider with
    | mk inner fexists =>
      rw [htb] at herr
      cases inner with
      | ok u => simp at herr
      | error r =>
        dsimp only
        cases r with
        | noAudioReceived => exact removeIfExists_eq_false fexists
        | exc m => exact removeIfExists_eq_false fexists

/-- Claim C3 witness: a provider NoAudioReceived failure on a valid run
leaves no file at the allocated path. -/
theorem C3_cleanup_on_error_witness :
    (generate_audio_file "hello" "en" (some "en-US-AriaNeural") (3/2) [enVoice]
        (.noAudio true) "/tmp/voxia1.mp3").result
      = .error (.valueError (noAudioMsg "en-US-AriaNeural" "en-US")) ∧
    (generate_audio_file "hello" "en" (some "en-US-AriaNeural") (3/2) [enVoice]
        (.noAudio true) "/tmp/voxia1.mp3").fileLeft = false := by
  have herr : (generate_audio_file "hello" "en" (some "en-US-AriaNeural") (3/2) [enVoice]
      (.noAudio true) "/tmp/voxia1.mp3").result
      = .error (.valueError (noAudioMsg "en-US-AriaNeural" "en-US")) := rfl
  exact ⟨herr, C3_cleanup_on_error "hello" "en" (some "en-US-AriaNeural") (3/2) [enVoice]
    (.noAudio true) "/tmp/voxia1.mp3" _ herr⟩

/-- Claim C6: when the (possibly defaulted) voice id is not in the
catalog, the run fails with the invalid-voice ValueError, allocates no
output location, and never invokes the provider, whatever script hints
the text contains. -/
theorem C6_unknown_voice (text lang : String) (sw : Option String) (speed : ℚ)
    (voices : List Voice) (provider : ProviderOutcome) (path : String)
    (hlk : lookupVoice voices ((normalizeSpeaker sw).getD "ru-RU-DmitryNeural") = none) :
    generate_audio_file text lang sw speed voices provider path
      = ⟨.error (.valueError (invalidVoiceMsg ((normalizeSpeaker sw).getD "ru-RU-DmitryNeural"))),
          none, none, false, false, false⟩ := by
  unfold generate_audio_file resolveVoice
  simp only [hlk]

/-- Claim C6 witness: requesting the id not-a-real-voice against a
catalog holding only the Russian voice fails with the invalid-voice
error, with no allocation and no provider call. -/
theorem C6_unknown_voice_witness :
    lookupVoice [ruVoice] "not-a-real-voice" = none ∧
    generate_audio_file "hello" "en" (some "not-a-real-voice") 1 [ruVoice] (.ok true 5)
        "/tmp/voxia2.mp3"
      = ⟨.error (.valueError (invalidVoiceMsg "not-a-real-voice")),
          none, none, false, false, false⟩ := by
  have hlk : lookupVoice [ruVoice] "not-a-real-voice" = none := by decide
  exact ⟨hlk, C6_unknown_voice "hello" "en" (some "not-a-real-voice") 1 [ruVoice] (.ok true 5)
    "/tmp/voxia2.mp3" hlk⟩

/-- Claim C7, counterexample: the zero-byte-artifact failure is raised as
the same exception kind and message as a generic provider error carrying
the message "Audio file is empty (0 bytes)" — the two runs are not
distinguishable by the caller, so EmptyArtifact is not a distinct error
kind in the code. -/
theorem C7_counterexample :
    (generate_audio_file "Привет мир" "ru" none 1 [ruVoice] (.ok true 0)
        "/tmp/voxia3.mp3").result
      = (generate_audio_file "Привет мир" "ru" none 1 [ruVoice]
          (.err "Audio file is empty (0 bytes)" true) "/tmp/voxia3.mp3").result ∧
    (generate_audio_file "Привет мир" "ru" none 1 [ruVoice] (.ok true 0)
        "/tmp/voxia3.mp3").result
      = .error (.exception "Edge-TTS error: Audio file is empty (0 bytes)") ∧
    (generate_audio_file "Привет мир" "ru" none 1 [ruVoice] (.ok true 0)
        "/tmp/voxia3.mp3").fileLeft = false :=
  ⟨rfl, rfl, rfl⟩

/-- Claim C7 as amended: when the provider reports success but the
artifact is missing or empty, the engine deletes the artifact and raises
Exception("Edge-TTS error: Audio file is empty (0 bytes)") (or "... was
not created"), the same generic exception kind used for every other
provider failure — distinguishable from them only by message text, though
distinguishable by type from the NoAudioReceived ValueError. -/
theorem C7_empty_artifact (text lang : String) (sw : Option String) (speed : ℚ)
    (voices : List Voice) (path : String) (st : String × String) (fexists : Bool) (size : Nat)
    (hres : resolveVoice text sw voices = .ok st) (hempty : fexists = false ∨ size = 0) :
    (generate_audio_file text lang sw speed voices (.ok fexists size) path).result
        = .error (.exception ("Edge-TTS error: "
            ++ (if fexists then "Audio file is empty (0 bytes)"
                else "Audio file was not created"))) ∧
      (generate_audio_file text lang sw speed voices (.ok fexists size) path).fileLeft
        = false := by
  unfold generate_audio_file
  rw [hres]
  dsimp only
  cases fexists with
  | false =>
    unfold tryBody handleRaised
    simp [removeIfExists_eq_false]
  | true =>
    rcases hempty with h | h
    · exact absurd h (by simp)
    · subst h
      unfold tryBody handleRaised
      simp [removeIfExists_eq_false]

/-- Claim C7 witness: the amended statement at a run whose provider
reports success but creates no file. -/
theorem C7_empty_artifact_witness :
    resolveVoice "ok" none [ruVoice] = .ok ("ru-RU-DmitryNeural", "ru-RU") ∧
    ((false : Bool) = false ∨ (7 : Nat) = 0) ∧
    (generate_audio_file "ok" "en" none (5/4) [ruVoice] (.ok false 7) "/tmp/voxia4.mp3").result
      = .error (.exception ("Edge-TTS error: "
          ++ (if false then "Audio file is empty (0 bytes)"
              else "Audio file was not created"))) ∧
    (generate_audio_file "ok" "en" none (5/4) [ruVoice] (.ok false 7)
        "/tmp/voxia4.mp3").fileLeft = false := by
  have hres : resolveVoice "ok" none [ruVoice] = .ok ("ru-RU-DmitryNeural", "ru-RU") := rfl
  have hmt := C7_empty_artifact "ok" "en" none (5/4) [ruVoice] "/tmp/voxia4.mp3"
    ("ru-RU-DmitryNeural", "ru-RU") false 7 hres (Or.inl rfl)
  exact ⟨hres, Or.inl rfl, hmt.1, hmt.2⟩

/-- Claim C10: when voice resolution fails (unknown voice or language
mismatch), the run propagates that error with no output location
allocated, no provider call, and no file created — the filesystem is
untouched. -/
theorem C10_no_allocation_on_resolution_failure (text lang : String) (sw : Option String)
    (speed : ℚ) (voices : List Voice) (provider : ProviderOutcome) (path : String) (e : PyError)
    (hres : resolveVoice text sw voices = .error e) :
    generate_audio_file text lang sw speed voices provider path
      = ⟨.error e, none, none, false, false, false⟩ := by
  unfold generate_audio_file
  rw [hres]

/-- Claim C10 witness: a LanguageMismatch failure (Cyrillic text, English
voice, no Russian voice in the catalog) allocates nothing and creates no
file. -/
theorem C10_no_allocation_witness :
    resolveVoice "Мир" (some "en-US-AriaNeural") [enVoice]
      = .error (.valueError (cyrMismatchMsg "en-US-AriaNeural" "en-US")) ∧
    generate_audio_file "Мир" "ru" (some "en-US-AriaNeural") 2 [enVoice] (.ok true 9)
        "/tmp/voxia5.mp3"
      = ⟨.error (.valueError (cyrMismatchMsg "en-US-AriaNeural" "en-US")),
          none, none, false, false, false⟩ := by
  have hres : resolveVoice "Мир" (some "en-US-AriaNeural") [enVoice]
      = .error (.valueError (cyrMismatchMsg "en-US-AriaNeural" "en-US")) := rfl
  exact ⟨hres, C10_no_allocation_on_resolution_failure "Мир" "ru" (some "en-US-AriaNeural") 2
    [enVoice] (.ok true 9) "/tmp/voxia5.mp3" _ hres⟩
